import Mathlib

/-!
Verification of the WeChat group-notification monitor (`app.py`).

The Python source is shallowly embedded: pure string manipulation is
translated to functions on `String` / `List Char`, the JSON files backing
the config and notification stores become explicit state values threaded
through the operations, and the remote model API (an external HTTP
collaborator) is a function parameter (`api`, `model`).  Python's
`json.loads` on model responses is likewise an external-library parameter
`loads : String → Option Json` (`none` models a `JSONDecodeError`).
Exceptions are modelled with `Except`.
-/

/-- Python exceptions that the embedded code can raise. -/
inductive PyExc where
  | attributeError
  | jsonDecodeError
  | valueError
  | typeError
deriving DecidableEq, Repr

/-- A JSON value, the shape `json.loads` can return. -/
inductive Json where
  | null
  | bool (b : Bool)
  | num (n : Int)
  | str (s : String)
  | arr (xs : List Json)
  | obj (fs : List (String × Json))

/-- A Python dict with string keys, as an insertion-ordered association list. -/
abbrev PyDict := List (String × Json)

/-- `isPre n h`: the list `n` starts the list `h` (Python `h.startswith(n)`). -/
def isPre : List Char → List Char → Bool
  | [], _ => true
  | _ :: _, [] => false
  | a :: as, b :: bs => a == b && isPre as bs

/-- `hasSubstr n h`: `n` occurs contiguously inside `h` (Python `n in h`). -/
def hasSubstr (n : List Char) : List Char → Bool
  | [] => n.isEmpty
  | c :: t => isPre n (c :: t) || hasSubstr n t

/-- Python `str.strip()` on the character list: drop whitespace from both ends. -/
def pyStripChars (l : List Char) : List Char :=
  ((l.dropWhile Char.isWhitespace).reverse.dropWhile Char.isWhitespace).reverse

/-- Python `response.strip()`. -/
def pyStrip (s : String) : String := String.mk (pyStripChars s.data)

/-- The config document `data/config.json` (`load_config` / `save_config`). -/
structure Config where
  target_groups : List String
  keywords : List String
  enable_alert : Bool
deriving DecidableEq, Repr

/-- The default config materialized by `load_config` on a missing or
malformed file (app.py lines 43-47). -/
def default_config : Config :=
  { target_groups := []
    keywords := ["通知", "重要", "紧急", "提醒", "必看"]
    enable_alert := true }

/-- `analyze_with_model` (app.py lines 109-115): the remote call either
yields a completion body with `choices` (`api prompt = some reply`) or
fails / lacks `choices` (`none`), in which case `""` is returned. -/
def analyze_with_model (api : String → Option String) (prompt : String) : String :=
  (api prompt).getD ""

/-- The yes/no classification prompt built by `is_notification` (line 123). -/
def isNotifPrompt (content : String) : String :=
  "请严格判断以下消息是否为重要通知（如活动通知、紧急通知、重要提醒等），只需回答是或否:\n" ++ content

/-- `is_notification` (app.py lines 117-127).  The second component counts
remote model calls (0 or 1).  The result of the call branch is
`"是" in response.strip()`. -/
def is_notification (cfg : Config) (api : String → Option String)
    (content : String) : Bool × Nat :=
  let has_keyword := cfg.keywords.any fun k => hasSubstr k.data content.data
  if has_keyword || content.length > 20 then
    let response := analyze_with_model api (isNotifPrompt content)
    (hasSubstr "是".data (pyStrip response).data, 1)
  else
    (false, 0)

/-- The characters `{` and `}` (as searched for by lines 163-164). -/
def lbrace : Char := Char.ofNat 123

/-- See `lbrace`. -/
def rbrace : Char := Char.ofNat 125

/-- Python `s.find(c)`: index of the first occurrence of `c`, `none` for
Python's `-1`. -/
def pyFind (l : List Char) (c : Char) : Option Nat :=
  match l with
  | [] => none
  | a :: t => if a == c then some 0 else (pyFind t c).map (· + 1)

/-- Python `s.rfind(c)`: index of the last occurrence of `c`. -/
def pyRfind (l : List Char) (c : Char) : Option Nat :=
  match l with
  | [] => none
  | a :: t =>
    match pyRfind t c with
    | some i => some (i + 1)
    | none => if a == c then some 0 else none

/-- The extraction prompt f-string of `extract_notification_info`
(app.py lines 131-142). -/
def extractPrompt (content : String) : String :=
  "请严格从以下通知中提取关键信息，返回规范的JSON格式，确保所有属性名用双引号包围：\n        \x7b\n            \"title\": \"通知标题\",\n            \"time\": \"时间信息\",\n            \"location\": \"地点信息\",\n            \"content\": \"主要内容摘要\",\n            \"action\": \"需要采取的行动\",\n            \"is_urgent\": false\n        \x7d\n\n        通知内容：\n        " ++ content

/-- `default_info` (app.py lines 144-151): the fallback record, with
`content` truncated to the first 200 characters of the input. -/
def default_info (content : String) : PyDict :=
  [("title", Json.str "未知通知"),
   ("time", Json.str ""),
   ("location", Json.str ""),
   ("content", Json.str (content.take 200)),
   ("action", Json.str ""),
   ("is_urgent", Json.bool false)]

/-- Python `key in dict`. -/
def dictHas (d : PyDict) (k : String) : Bool := d.any fun p => p.1 == k

/-- Python `dict[key]` lookup (keys produced by `json.loads` are unique). -/
def dictGet (d : PyDict) (k : String) : Option Json :=
  (d.find? fun p => p.1 == k).map Prod.snd

/-- Python `dict[key] = v`: replace in place if present, else append. -/
def dictSet (d : PyDict) (k : String) (v : Json) : PyDict :=
  if dictHas d k then d.map fun p => if p.1 == k then (k, v) else p
  else d ++ [(k, v)]

/-- The tuple `('true', '是', 'yes')` of line 178. -/
def urgentTokens : List String := ["true", "是", "yes"]

/-- Python `str.lower()`, applied character by character. -/
def pyLower (s : String) : String := String.mk (s.data.map Char.toLower)

/-- One iteration of the field-fixing loop (app.py lines 172-178): backfill
a missing `key` from the default record, then coerce a string-valued
`is_urgent` with `info[key].lower() in ('true', '是', 'yes')`. -/
def fixKey (dflt : PyDict) (info : PyDict) (k : String) : PyDict :=
  let info1 := if dictHas info k then info else dictSet info k ((dictGet dflt k).getD Json.null)
  if k == "is_urgent" then
    match dictGet info1 k with
    | some (Json.str s) => dictSet info1 k (Json.bool (urgentTokens.contains (pyLower s)))
    | _ => info1
  else info1

/-- The full field-fixing loop `for key in default_info: ...`
(app.py lines 172-178), iterating the keys in insertion order. -/
def fixFields (dflt : PyDict) (info : PyDict) : PyDict :=
  ["title", "time", "location", "content", "action", "is_urgent"].foldl (fixKey dflt) info

/-- Line 156: `print(json.load(response))`.  `json.load` expects a file
object and immediately calls `fp.read()`; `response` is a `str`, which has
no `read` attribute, so this raises `AttributeError` on every call. -/
def json_load_str (_response : String) : Except PyExc Json :=
  Except.error PyExc.attributeError

/-- The body of the outer `try` of `extract_notification_info`
(app.py lines 153-180).  `loads` stands for `json.loads` (`none` models a
`JSONDecodeError`); `model` is the remote reply to the extraction prompt.
Applying the field loop to a non-dict value raises (`TypeError`), matching
the Python semantics of `info[key] = ...` on a non-dict. -/
def extract_body (loads : String → Option Json) (model : String → String)
    (content : String) : Except PyExc PyDict :=
  let response := model (extractPrompt content)
  match json_load_str response with
  | Except.error e => Except.error e
  | Except.ok _ =>
    let parsed : Except PyExc Json :=
      match loads response with
      | some j => Except.ok j
      | none =>
        match pyFind response.data lbrace, pyRfind response.data rbrace with
        | some s, some e =>
          if s < e + 1 then
            match loads (String.mk ((response.data.drop s).take (e + 1 - s))) with
            | some j => Except.ok j
            | none => Except.error PyExc.jsonDecodeError
          else Except.error PyExc.valueError
        | _, _ => Except.error PyExc.valueError
    match parsed with
    | Except.error e => Except.error e
    | Except.ok (Json.obj d) => Except.ok (fixFields (default_info content) d)
    | Except.ok _ => Except.error PyExc.typeError

/-- `extract_notification_info` (app.py lines 129-183): run the `try` body;
any exception falls back to `default_info`. -/
def extract_notification_info (loads : String → Option Json)
    (model : String → String) (content : String) : PyDict :=
  match extract_body loads model content with
  | Except.ok info => info
  | Except.error _ => default_info content

/-- Project a JSON string value out of a lookup result. -/
def getStr : Option Json → Option String
  | some (Json.str s) => some s
  | _ => none

/-- Project a JSON boolean value out of a lookup result. -/
def getBool : Option Json → Option Bool
  | some (Json.bool b) => some b
  | _ => none

/-- Concrete message for the C1 failing input. -/
def content1 : String := "期末考试将于明天上午九点在三号教学楼举行，请同学们准时参加"

/-- Concrete model reply for C1: valid JSON with all six fields, with a
string-valued `is_urgent`. -/
def resp1 : String :=
  "\x7b\"title\": \"考试通知\", \"time\": \"明天上午九点\", \"location\": \"三号教学楼\", \"content\": \"期末考试\", \"action\": \"准时参加\", \"is_urgent\": \"TRUE\"\x7d"

/-- The object `resp1` decodes to. -/
def obj1 : PyDict :=
  [("title", Json.str "考试通知"), ("time", Json.str "明天上午九点"),
   ("location", Json.str "三号教学楼"), ("content", Json.str "期末考试"),
   ("action", Json.str "准时参加"), ("is_urgent", Json.str "TRUE")]

/-- A `json.loads` model that decodes exactly `resp1` (which is valid JSON). -/
def loads1 : String → Option Json :=
  fun s => if s == resp1 then some (Json.obj obj1) else none

/-- A model oracle always replying `resp1`. -/
def model1 : String → String := fun _ => resp1

/-- Concrete message for the C4 failing input. -/
def content4 : String := "本周五下午两点在图书馆报告厅举行讲座，请大家参加"

/-- Concrete model reply for C4: a decodable JSON object surrounded by
extra prose. -/
def resp4 : String := "好的，提取结果如下：\x7b\"title\": \"讲座通知\"\x7d 希望有帮助"

/-- The `{...}` block embedded in `resp4` (first `{` to last `}`). -/
def inner4 : String := "\x7b\"title\": \"讲座通知\"\x7d"

/-- The object `inner4` decodes to. -/
def obj4 : PyDict := [("title", Json.str "讲座通知")]

/-- A `json.loads` model that fails on the full prose reply but decodes the
embedded `{...}` block. -/
def loads4 : String → Option Json :=
  fun s => if s == inner4 then some (Json.obj obj4) else none

/-- A model oracle always replying `resp4`. -/
def model4 : String → String := fun _ => resp4

/-- A stored notification record (`data/notifications.json`).  The store
operations touch only `id` and `is_read`; the remaining fields (timestamp,
group, sender, raw_content, extracted fields) are carried opaquely in
`payload`. -/
structure Notification where
  id : String
  is_read : Bool
  payload : List (String × String)
deriving DecidableEq, Repr

/-- `delete_notification` (app.py lines 304-320) on a loaded store: filter
out records matching the id; rewrite the file only if the count shrank.
Returns the resulting file contents and the method's return value. -/
def delete_notification (ns : List Notification) (nid : String) :
    List Notification × Bool :=
  let new_notifications := ns.filter fun n => n.id != nid
  if new_notifications.length < ns.length then (new_notifications, true)
  else (ns, false)

/-- `mark_notification_as_read` (app.py lines 282-301) on a loaded store:
flip `is_read` on every record matching the id; rewrite the file once if
any matched.  Returns the resulting file contents, the method's return
value, and the number of file writes performed. -/
def mark_notification_as_read (ns : List Notification) (nid : String) :
    List Notification × Bool × Nat :=
  let updated := ns.any fun n => n.id == nid
  let ns2 := ns.map fun n => if n.id == nid then { n with is_read := true } else n
  if updated then (ns2, true, 1) else (ns, false, 0)

/-- The state of `data/config.json` as `load_config` can encounter it:
absent (`FileNotFoundError`), undecodable (`JSONDecodeError`), or holding a
config document. -/
inductive ConfigFile where
  | missing
  | malformed
  | stored (c : Config)
deriving DecidableEq, Repr

/-- `save_config` (app.py lines 51-56): serialize the full config,
overwriting the file (`json.dump` output decodes back to the same
structure). -/
def save_config (c : Config) : ConfigFile := ConfigFile.stored c

/-- `load_config` (app.py lines 37-49): read and decode the file; on a
missing or malformed file, persist and return `default_config`.  Returns
the loaded config and the resulting file state. -/
def load_config (fs : ConfigFile) : Config × ConfigFile :=
  match fs with
  | ConfigFile.stored c => (c, fs)
  | ConfigFile.missing => (default_config, save_config default_config)
  | ConfigFile.malformed => (default_config, save_config default_config)

/-- The monitor state touched by the listener manager: the in-memory config
and the keys of the `active_listeners` dict (insertion order; membership is
what the code tests). -/
structure MonitorState where
  config : Config
  active_listeners : List String
deriving DecidableEq, Repr

/-- `add_group_listener` (app.py lines 226-236): no-op returning `False` if
already active; otherwise register (the `wx.AddListenChat` side effect is
external), mark active, and append to `target_groups` if not already
present.  Returns the new state and the method's return value. -/
def add_group_listener (st : MonitorState) (g : String) : MonitorState × Bool :=
  if g ∉ st.active_listeners then
    let active := st.active_listeners ++ [g]
    let cfg :=
      if g ∉ st.config.target_groups then
        { st.config with target_groups := st.config.target_groups ++ [g] }
      else st.config
    ({ config := cfg, active_listeners := active }, true)
  else (st, false)

/-- `remove_group_listener` (app.py lines 238-248): no-op returning `False`
if not active; otherwise unregister, drop the in-memory marker, and remove
the first occurrence from `target_groups` if present (Python
`list.remove`). -/
def remove_group_listener (st : MonitorState) (g : String) : MonitorState × Bool :=
  if g ∈ st.active_listeners then
    let active := st.active_listeners.erase g
    let cfg :=
      if g ∈ st.config.target_groups then
        { st.config with target_groups := st.config.target_groups.erase g }
      else st.config
    ({ config := cfg, active_listeners := active }, true)
  else (st, false)

/-- A listener-manager call, for reasoning about call sequences. -/
inductive GroupOp where
  | add (g : String)
  | remove (g : String)

/-- The state transition of one listener-manager call. -/
def applyGroupOp (st : MonitorState) (op : GroupOp) : MonitorState :=
  match op with
  | GroupOp.add g => (add_group_listener st g).1
  | GroupOp.remove g => (remove_group_listener st g).1

/-- The state after a sequence of listener-manager calls. -/
def applyGroupOps (st : MonitorState) (ops : List GroupOp) : MonitorState :=
  ops.foldl applyGroupOp st

theorem isPre_append (n l1 l2 : List Char) (h : isPre n l1 = true) :
    isPre n (l1 ++ l2) = true := by
  induction n generalizing l1 with
  | nil => simp [isPre]
  | cons a as ih =>
    cases l1 with
    | nil => simp [isPre] at h
    | cons b bs =>
      simp only [isPre, Bool.and_eq_true, beq_iff_eq] at h
      simp only [List.cons_append, isPre, Bool.and_eq_true, beq_iff_eq]
      exact ⟨h.1, ih bs h.2⟩

theorem hasSubstr_cons (n : List Char) (c : Char) (t : List Char)
    (h : hasSubstr n t = true) : hasSubstr n (c :: t) = true := by
  simp [hasSubstr, h]

theorem hasSubstr_nil_needle (h : List Char) : hasSubstr [] h = true := by
  cases h with
  | nil => rfl
  | cons c t => simp [hasSubstr, isPre]

theorem hasSubstr_append_left (n l1 l2 : List Char)
    (h : hasSubstr n l1 = true) : hasSubstr n (l1 ++ l2) = true := by
  induction l1 with
  | nil =>
    simp only [hasSubstr, List.isEmpty_iff] at h
    subst h
    exact hasSubstr_nil_needle l2
  | cons c t ih =>
    simp only [hasSubstr, Bool.or_eq_true] at h
    rcases h with h | h
    · simp only [List.cons_append, hasSubstr, Bool.or_eq_true]
      exact Or.inl (isPre_append n (c :: t) l2 h)
    · exact hasSubstr_cons n c (t ++ l2) (ih h)

theorem hasSubstr_dropWhile (n l : List Char) (p : Char → Bool)
    (h : hasSubstr n (l.dropWhile p) = true) : hasSubstr n l = true := by
  induction l with
  | nil => simpa using h
  | cons c t ih =>
    by_cases hc : p c = true
    · rw [List.dropWhile_cons_of_pos hc] at h
      exact hasSubstr_cons n c t (ih h)
    · rwa [List.dropWhile_cons_of_neg hc] at h

theorem hasSubstr_stripR (n l : List Char) (p : Char → Bool)
    (h : hasSubstr n ((l.reverse.dropWhile p).reverse) = true) :
    hasSubstr n l = true := by
  have hsplit : (l.reverse.takeWhile p) ++ (l.reverse.dropWhile p) = l.reverse :=
    List.takeWhile_append_dropWhile p l.reverse
  have hl : l = (l.reverse.dropWhile p).reverse ++ (l.reverse.takeWhile p).reverse := by
    calc l = l.reverse.reverse := (List.reverse_reverse l).symm
    _ = ((l.reverse.takeWhile p) ++ (l.reverse.dropWhile p)).reverse := by rw [hsplit]
    _ = (l.reverse.dropWhile p).reverse ++ (l.reverse.takeWhile p).reverse := by
        rw [List.reverse_append]
  rw [hl]
  exact hasSubstr_append_left _ _ _ h

theorem hasSubstr_pyStrip (n l : List Char)
    (h : hasSubstr n (pyStripChars l) = true) : hasSubstr n l = true := by
  unfold pyStripChars at h
  exact hasSubstr_dropWhile n l Char.isWhitespace
    (hasSubstr_stripR n (l.dropWhile Char.isWhitespace) Char.isWhitespace h)

/-- C2: short keyword-free content is rejected with no remote call; a true
verdict requires the local gate to pass and the model reply (to the yes/no
classification prompt) to contain the affirmative token `"是"`. -/
theorem is_notification_two_stage (cfg : Config) (api : String → Option String)
    (content : String) :
    ((∀ k ∈ cfg.keywords, hasSubstr k.data content.data = false) →
      content.length ≤ 20 →
      is_notification cfg api content = (false, 0))
    ∧ ((is_notification cfg api content).1 = true →
      ((cfg.keywords.any fun k => hasSubstr k.data content.data) = true ∨
        20 < content.length)
      ∧ hasSubstr "是".data (analyze_with_model api (isNotifPrompt content)).data
          = true) := by
  constructor
  · intro hk hlen
    unfold is_notification
    have h1 : (cfg.keywords.any fun k => hasSubstr k.data content.data) = false := by
      simp only [List.any_eq_false]
      intro k hkmem
      simp [hk k hkmem]
    have h2 : decide (content.length > 20) = false := by
      simp only [decide_eq_false_iff_not, not_lt]
      exact hlen
    simp [h1, h2, Nat.not_lt.mpr hlen]
  · intro htrue
    unfold is_notification at htrue
    by_cases hgate :
        ((cfg.keywords.any fun k => hasSubstr k.data content.data) || content.length > 20) = true
    · rw [if_pos hgate] at htrue
      simp only at htrue
      refine ⟨?_, ?_⟩
      · simpa [Bool.or_eq_true] using hgate
      · exact hasSubstr_pyStrip _ _ htrue
    · rw [if_neg hgate] at htrue
      simp at htrue

/-- Witness for C2: with keyword list `["通知"]` and the two-character
content `"hi"`, no keyword occurs and the length gate fails, so the
classifier answers `false` with zero remote calls. -/
theorem is_notification_two_stage_witness :
    is_notification ⟨[], ["通知"], true⟩ (fun _ => some "是的") "hi" = (false, 0) :=
  (is_notification_two_stage ⟨[], ["通知"], true⟩ (fun _ => some "是的") "hi").1
    (by decide) (by decide)

/-- C3: when the direct decode of the model reply fails and no substring of
the reply decodes either (so in particular the first-`{`-to-last-`}` block
fails), `extract_notification_info` returns exactly the default record —
title `"未知通知"`, empty time/location/action, `is_urgent = false`, and
`content` the first 200 characters of the input — and no parse failure
escapes to the caller. -/
theorem extract_info_unparseable_default (loads : String → Option Json)
    (model : String → String) (content : String)
    (hdirect : loads (model (extractPrompt content)) = none)
    (hsub : ∀ s e : Nat,
      loads (String.mk (((model (extractPrompt content)).data.drop s).take e)) = none) :
    extract_notification_info loads model content = default_info content := rfl

/-- Witness for C3 at a decoder that rejects everything and a prose-only
model reply. -/
theorem extract_info_unparseable_default_witness :
    extract_notification_info (fun _ => none) (fun _ => "这不是JSON") "hello" =
      default_info "hello" :=
  extract_info_unparseable_default (fun _ => none) (fun _ => "这不是JSON") "hello"
    rfl (fun _ _ => rfl)

/-- C1 (code bug): the model reply `resp1` is valid JSON carrying all six
fields and `loads1` decodes it, yet `extract_notification_info` returns the
default record: line 156 (`print(json.load(response))`) raises
`AttributeError` before any parsing — `json.load` wants a file object, not
a `str` — and the blanket `except` returns `default_info`.  The claim
instead predicts the decoded object with `is_urgent` coerced (computed here
by the now-dead field loop `fixFields`): title `"考试通知"` and
`is_urgent = true`, while the code produces title `"未知通知"` and
`is_urgent = false`. -/
theorem extract_info_valid_json_bug :
    extract_notification_info loads1 model1 content1 = default_info content1
    ∧ loads1 resp1 = some (Json.obj obj1)
    ∧ getStr (dictGet (extract_notification_info loads1 model1 content1) "title")
        = some "未知通知"
    ∧ getBool (dictGet (extract_notification_info loads1 model1 content1) "is_urgent")
        = some false
    ∧ getStr (dictGet (fixFields (default_info content1) obj1) "title") = some "考试通知"
    ∧ getBool (dictGet (fixFields (default_info content1) obj1) "is_urgent") = some true
    ∧ ("未知通知" : String) ≠ "考试通知" := by
  refine ⟨rfl, ?_, rfl, rfl, ?_, ?_, by decide⟩
  · simp [loads1]
  · simp [fixFields, fixKey, obj1, default_info, dictHas, dictGet, dictSet, getStr]
  · simp only [fixFields, fixKey, obj1, default_info, dictHas, dictGet, dictSet, getBool,
      urgentTokens]
    decide

/-- C4 (code bug): the model reply `resp4` is prose around a decodable
`{...}` block (characters 10 through 26 of the reply, which `loads4`
decodes to `obj4`), yet `extract_notification_info` returns the default
record because line 156 raises `AttributeError` before the extraction code
runs.  The claim instead predicts the recovered object backfilled from the
default (computed here by the now-dead `fixFields`): title `"讲座通知"`,
not the default `"未知通知"`. -/
theorem extract_info_embedded_json_bug :
    extract_notification_info loads4 model4 content4 = default_info content4
    ∧ loads4 resp4 = none
    ∧ loads4 inner4 = some (Json.obj obj4)
    ∧ pyFind resp4.data lbrace = some 10
    ∧ pyRfind resp4.data rbrace = some 26
    ∧ String.mk ((resp4.data.drop 10).take 17) = inner4
    ∧ getStr (dictGet (extract_notification_info loads4 model4 content4) "title")
        = some "未知通知"
    ∧ getStr (dictGet (fixFields (default_info content4) obj4) "title") = some "讲座通知"
    ∧ ("未知通知" : String) ≠ "讲座通知" := by
  refine ⟨rfl, ?_, ?_, by decide, by decide, ?_, rfl, ?_, by decide⟩
  · simp [loads4, resp4, inner4]
  · simp [loads4]
  · decide
  · simp [fixFields, fixKey, obj4, default_info, dictHas, dictGet, dictSet, getStr]

/-- C5: after `delete_notification`, the stored list holds no record with
the deleted id; and when no stored record has that id, the call returns
`False` and the stored sequence is unchanged. -/
theorem delete_notification_removes (ns : List Notification) (nid : String) :
    (∀ n ∈ (delete_notification ns nid).1, n.id ≠ nid)
    ∧ ((∀ n ∈ ns, n.id ≠ nid) → delete_notification ns nid = (ns, false)) := by
  constructor
  · intro n hn
    unfold delete_notification at hn
    by_cases hlt : (ns.filter fun m => m.id != nid).length < ns.length
    · rw [if_pos hlt] at hn
      simp only at hn
      have := List.mem_filter.mp hn
      simpa [bne_iff_ne] using this.2
    · rw [if_neg hlt] at hn
      simp only at hn
      have heq : (ns.filter fun m => m.id != nid).length = ns.length :=
        Nat.le_antisymm (List.length_filter_le _ ns) (Nat.not_lt.mp hlt)
      have hall := List.filter_length_eq_length.mp heq
      simpa [bne_iff_ne] using hall n hn
  · intro hnone
    unfold delete_notification
    have hself : (ns.filter fun m => m.id != nid) = ns :=
      List.filter_eq_self.mpr fun m hm => by simpa [bne_iff_ne] using hnone m hm
    simp [hself]

/-- Witness for C5: deleting the only record removes it, and deleting an
absent id returns `False` leaving the store unchanged. -/
theorem delete_notification_removes_witness :
    (∀ n ∈ (delete_notification [⟨"ntf-1", false, []⟩] "ntf-1").1, n.id ≠ "ntf-1")
    ∧ delete_notification [⟨"ntf-1", false, []⟩] "ntf-2" = ([⟨"ntf-1", false, []⟩], false) :=
  ⟨(delete_notification_removes [⟨"ntf-1", false, []⟩] "ntf-1").1,
   (delete_notification_removes [⟨"ntf-1", false, []⟩] "ntf-2").2 (by decide)⟩

/-- C6: `mark_notification_as_read` on an id matching no stored record
returns `False` and leaves the stored sequence equal to its prior value
(with no file write); and it returns `True` iff some record matched. -/
theorem mark_read_missing_id (ns : List Notification) (nid : String) :
    ((∀ n ∈ ns, n.id ≠ nid) → mark_notification_as_read ns nid = (ns, false, 0))
    ∧ ((mark_notification_as_read ns nid).2.1 = true ↔ ∃ n ∈ ns, n.id = nid) := by
  constructor
  · intro hnone
    unfold mark_notification_as_read
    have hany : (ns.any fun n => n.id == nid) = false := by
      simp only [List.any_eq_false]
      intro n hn
      simpa using hnone n hn
    simp [hany]
  · unfold mark_notification_as_read
    by_cases hany : (ns.any fun n => n.id == nid) = true
    · simp only [hany, if_true]
      constructor
      · intro _
        simpa [List.any_eq_true] using hany
      · intro _
        trivial
    · simp only [Bool.not_eq_true] at hany
      simp only [hany, Bool.false_eq_true, if_false]
      constructor
      · intro h
        simp at h
      · intro hex
        have : (ns.any fun n => n.id == nid) = true := by
          simpa [List.any_eq_true] using hex
        rw [this] at hany
        cases hany

/-- Witness for C6: marking an absent id in a one-record store returns
`False`, performs no write, and leaves the record unread. -/
theorem mark_read_missing_id_witness :
    mark_notification_as_read [⟨"ntf-3", false, []⟩] "ntf-9" =
      ([⟨"ntf-3", false, []⟩], false, 0) :=
  (mark_read_missing_id [⟨"ntf-3", false, []⟩] "ntf-9").1 (by decide)

/-- C9: when at least one stored record matches the id, one call marks
every matching record read (not only the first) and rewrites the file
exactly once. -/
theorem mark_read_marks_all (ns : List Notification) (nid : String)
    (h : ∃ n ∈ ns, n.id = nid) :
    (∀ n ∈ (mark_notification_as_read ns nid).1, n.id = nid → n.is_read = true)
    ∧ (mark_notification_as_read ns nid).2.2 = 1 := by
  have hany : (ns.any fun n => n.id == nid) = true := by
    simpa [List.any_eq_true] using h
  unfold mark_notification_as_read
  simp only [hany, if_true]
  refine ⟨?_, by trivial⟩
  intro n hn hid
  simp only [List.mem_map] at hn
  obtain ⟨m, hm, rfl⟩ := hn
  by_cases hmid : (m.id == nid) = true
  · simp [hmid]
  · simp only [hmid, Bool.false_eq_true, if_false] at hid ⊢
    exact absurd hid (by simpa using hmid)

/-- Witness for C9: two records share the id `"ntf-5"` (the one-second id
granularity makes this reachable); a single call marks both read and
writes once. -/
theorem mark_read_marks_all_witness :
    (∀ n ∈ (mark_notification_as_read
        [⟨"ntf-5", false, [("group", "a")]⟩, ⟨"ntf-5", false, [("group", "b")]⟩]
        "ntf-5").1, n.id = "ntf-5" → n.is_read = true)
    ∧ (mark_notification_as_read
        [⟨"ntf-5", false, [("group", "a")]⟩, ⟨"ntf-5", false, [("group", "b")]⟩]
        "ntf-5").2.2 = 1 :=
  mark_read_marks_all
    [⟨"ntf-5", false, [("group", "a")]⟩, ⟨"ntf-5", false, [("group", "b")]⟩]
    "ntf-5" (by decide)

/-- C7: from a state whose `target_groups` holds the name at most once, a
successful `add_group_listener` followed by a second call for the same
name: the second call returns `False` and `target_groups` still holds the
name at most once (no duplicate). -/
theorem add_group_listener_idempotent (st : MonitorState) (g : String)
    (hcount : st.config.target_groups.count g ≤ 1)
    (hfirst : (add_group_listener st g).2 = true) :
    (add_group_listener (add_group_listener st g).1 g).2 = false
    ∧ ((add_group_listener (add_group_listener st g).1 g).1.config.target_groups.count g
        ≤ 1) := by
  have hnotact : g ∉ st.active_listeners := by
    by_contra hmem
    unfold add_group_listener at hfirst
    rw [if_neg (by simpa using hmem)] at hfirst
    cases hfirst
  have hst1 : (add_group_listener st g).1 =
      { config :=
          if g ∉ st.config.target_groups then
            { st.config with target_groups := st.config.target_groups ++ [g] }
          else st.config
        active_listeners := st.active_listeners ++ [g] } := by
    unfold add_group_listener
    rw [if_pos hnotact]
  have hsecond : add_group_listener (add_group_listener st g).1 g =
      ((add_group_listener st g).1, false) := by
    rw [hst1]
    simp [add_group_listener]
  refine ⟨by rw [hsecond], ?_⟩
  rw [hsecond, hst1]
  by_cases htg : g ∈ st.config.target_groups
  · simpa [htg] using hcount
  · have hzero : st.config.target_groups.count g = 0 := List.count_eq_zero.mpr htg
    simp [htg, List.count_append, hzero]

/-- Witness for C7: adding `"班级群"` to the fresh default state succeeds;
adding it again returns `False` and leaves a single occurrence. -/
theorem add_group_listener_idempotent_witness :
    (add_group_listener (add_group_listener ⟨default_config, []⟩ "班级群").1 "班级群").2
        = false
    ∧ ((add_group_listener (add_group_listener ⟨default_config, []⟩ "班级群").1
        "班级群").1.config.target_groups.count "班级群" ≤ 1) :=
  add_group_listener_idempotent ⟨default_config, []⟩ "班级群" (by decide) (by decide)

/-- C8: `save_config` then `load_config` returns the saved structure with
the file untouched; and `load_config` on a missing or malformed file
materializes, persists, and returns `default_config` (keywords
`["通知","重要","紧急","提醒","必看"]`, empty `target_groups`,
`enable_alert = true`). -/
theorem config_roundtrip_and_default (c : Config) (fs : ConfigFile) :
    load_config (save_config c) = (c, save_config c)
    ∧ (fs = ConfigFile.missing ∨ fs = ConfigFile.malformed →
      load_config fs = (default_config, ConfigFile.stored default_config)) := by
  refine ⟨rfl, ?_⟩
  rintro (rfl | rfl) <;> rfl

/-- Witness for C8 at the default config and a missing file. -/
theorem config_roundtrip_and_default_witness :
    load_config (save_config default_config) = (default_config, save_config default_config)
    ∧ load_config ConfigFile.missing = (default_config, ConfigFile.stored default_config) :=
  ⟨(config_roundtrip_and_default default_config ConfigFile.missing).1,
   (config_roundtrip_and_default default_config ConfigFile.missing).2 (Or.inl rfl)⟩

theorem add_group_listener_nodup (st : MonitorState) (g : String)
    (h : st.config.target_groups.Nodup) :
    (add_group_listener st g).1.config.target_groups.Nodup := by
  unfold add_group_listener
  by_cases hact : g ∉ st.active_listeners
  · rw [if_pos hact]
    by_cases htg : g ∉ st.config.target_groups
    · rw [if_pos htg]
      exact List.nodup_append.mpr ⟨h, List.nodup_singleton g, by
        simpa [List.disjoint_singleton] using htg⟩
    · rw [if_neg htg]
      exact h
  · rw [if_neg hact]
    exact h

theorem remove_group_listener_nodup (st : MonitorState) (g : String)
    (h : st.config.target_groups.Nodup) :
    (remove_group_listener st g).1.config.target_groups.Nodup := by
  unfold remove_group_listener
  by_cases hact : g ∈ st.active_listeners
  · rw [if_pos hact]
    by_cases htg : g ∈ st.config.target_groups
    · rw [if_pos htg]
      exact h.erase g
    · rw [if_neg htg]
      exact h
  · rw [if_neg hact]
    exact h

/-- C10: starting from a config whose `target_groups` has no duplicates,
every sequence of `add_group_listener` / `remove_group_listener` calls
preserves that each group name occurs at most once. -/
theorem group_ops_preserve_nodup (st : MonitorState) (ops : List GroupOp)
    (h : st.config.target_groups.Nodup) :
    (applyGroupOps st ops).config.target_groups.Nodup := by
  induction ops generalizing st with
  | nil => exact h
  | cons op rest ih =>
    have hstep : (applyGroupOp st op).config.target_groups.Nodup := by
      cases op with
      | add g => exact add_group_listener_nodup st g h
      | remove g => exact remove_group_listener_nodup st g h
    exact ih (applyGroupOp st op) hstep

/-- Witness for C10: a concrete add/add/remove/add sequence from the fresh
default state keeps `target_groups` duplicate-free. -/
theorem group_ops_preserve_nodup_witness :
    (applyGroupOps ⟨default_config, []⟩
      [GroupOp.add "a", GroupOp.add "b", GroupOp.remove "a",
        GroupOp.add "a"]).config.target_groups.Nodup :=
  group_ops_preserve_nodup ⟨default_config, []⟩
    [GroupOp.add "a", GroupOp.add "b", GroupOp.remove "a", GroupOp.add "a"]
    (by simp [default_config])
